import Mathlib

set_option linter.unusedVariables false

/-!
Verification development for the `checkpointed-steps` step library.

The development shallowly embeds the four source modules:
  * `checkpointed_steps/misc/func.py` — the function-to-step adapter
    (`pipeline_step`, `FunctionStepBase`, `pickle_loader`, `pickle_saver`);
  * `checkpointed_steps/encoders/text/word2vec.py` — `Word2VecEncoder`;
  * `checkpointed_steps/encoders/text/dict2array.py` — `DictToSparseArray`;
  * `checkpointed_steps/processing/text/flatten.py` — `Flattened`.

Python conventions used throughout the embedding:
  * a Python exception is an `Except` error value;
  * a Python `dict` is an association list, `dict[k]` is `List.lookup`
    (raising `KeyError` when absent where the source would raise);
  * file-system side effects are explicit: a file system is an association
    list from paths to stored values, writing a file conses a binding,
    reading a file is a lookup;
  * `None` is `Option.none`.
-/

namespace Checkpointed

/-- Model of a Python runtime value, restricted to the shapes that the
`supported_input_steps` decorator parameter can take: `None`, a boolean, or a
collection (here: a list of step-class names).  `pyTruthy` is Python truthiness
for these shapes. -/
inductive PyValue where
| pyNone : PyValue
| pyBool : Bool → PyValue
| pyList : List String → PyValue
deriving DecidableEq, Repr

/-- Python truthiness of a `PyValue`: `None` is falsy, a boolean is itself, a
collection is truthy exactly when non-empty. -/
def pyTruthy : PyValue → Bool
| .pyNone => false
| .pyBool b => b
| .pyList l => !l.isEmpty

/-- Checkpoint metadata: the dictionaries produced by
`get_checkpoint_metadata` map string keys to an optional integer fingerprint
(`{'function_hash': <hash or None>}`, or the empty dict `{}`). -/
abbrev Metadata := List (String × Option Nat)

/-- Model of CPython's built-in `hash` on strings, as used at `func.py` line 51
(`hash_value = hash(source)`).  CPython's actual string hash is a per-process
seeded SipHash into 64-bit machine integers and is not reproducible here; a
deterministic 64-bit polynomial string hash stands in for it.  The model keeps
the two features the claims depend on: the fingerprint is a pure function of
the source text (per process), and it inhabits a finite 64-bit codomain. -/
def pythonStringHash (s : String) : Nat :=
  s.data.foldl (fun h c => (h * 33 + c.toNat) % (2 ^ 64)) 5381

/-- The class synthesized by `pipeline_step`'s `decorator` (`func.py` lines
54-67): the fields injected into the dynamically created type.
`functionHash` is `'$_hash'` (the optional source fingerprint), `isPure` is
`'$_pure'`, `supportedInputs` is `'$_supported_inputs'` (stored as the raw
Python value the caller supplied).  The wrapped function and the save/load
callbacks are passed separately to the operations that use them. -/
structure FunctionStepBase where
  functionHash : Option Nat
  isPure : Bool
  supportedInputs : PyValue
deriving DecidableEq, Repr

namespace Func

/-- `pipeline_step(...)​(func)` — the decorator body (`func.py` lines 45-68).
`source` is the result of `inspect.getsource(func)`: `some text` on success,
`none` when the attempt raises `OSError` (line 48-49).  `hash_value` is
`hash(source)` when the source is available and `None` otherwise
(lines 50-53). -/
def pipeline_step (source : Option String) (isPure : Bool)
    (supportedInputSteps : PyValue) : FunctionStepBase :=
  { functionHash := source.map pythonStringHash
    isPure := isPure
    supportedInputs := supportedInputSteps }

/-- File system model shared by all save/load pairs: an association list from
paths to stored values.  Serialization (pickle / numpy's on-disk format) is
treated as transparent: a write stores the value itself under the path. -/
abbrev FileSystem (α : Type) := List (String × α)

/-- `pickle_loader` (`func.py` lines 18-20): read the pickled value stored at
`path`, `none` when no file exists there. -/
def pickle_loader {α : Type} (path : String) (fs : FileSystem α) : Option α :=
  fs.lookup path

/-- `pickle_saver` (`func.py` lines 23-25): write `result` (pickled) to
`path`. -/
def pickle_saver {α : Type} (path : String) (result : α) (fs : FileSystem α) :
    FileSystem α :=
  (path, result) :: fs

end Func

/-- `FunctionStepBase.supports_step_as_input` (`func.py` lines 74-76):
`return getattr(cls, '$_supported_inputs')` — the stored value is returned
unchanged; the `step` argument is never read. -/
def FunctionStepBase.supports_step_as_input (cls : FunctionStepBase)
    (step : String) : PyValue :=
  cls.supportedInputs

/-- `FunctionStepBase.is_deterministic` (`func.py` lines 92-94):
`return getattr(cls, '$_pure', False)` — the decorator always sets `'$_pure'`,
so this returns the stored purity flag. -/
def FunctionStepBase.is_deterministic (cls : FunctionStepBase) : Bool :=
  cls.isPure

/-- `FunctionStepBase.get_checkpoint_metadata` (`func.py` lines 96-99):
`return {'function_hash': getattr(self, '$_hash')}`. -/
def FunctionStepBase.get_checkpoint_metadata (self : FunctionStepBase) :
    Metadata :=
  [("function_hash", self.functionHash)]

/-- `FunctionStepBase.checkpoint_is_valid` (`func.py` lines 101-103):
`h = getattr(self, '$_hash'); return h is not None and h == metadata['function_hash']`.
Python's `and` short-circuits: when `h` is `None` the result is `False` and the
metadata subscript is never evaluated; when `h` is an integer, the subscript
`metadata['function_hash']` raises `KeyError` if the key is absent, and
otherwise `h == value` compares the integer against the stored optional value
(an `int == None` comparison is `False`). -/
def FunctionStepBase.checkpoint_is_valid (self : FunctionStepBase)
    (metadata : Metadata) : Except String Bool :=
  match self.functionHash with
  | none => .ok false
  | some h =>
    match metadata.lookup "function_hash" with
    | none => .error "KeyError: function_hash"
    | some stored => .ok (some h == stored)

namespace Flattened

/-- `Flattened.execute` (`flatten.py` lines 26-31): each document is a list of
token lists; the step returns, per document,
`list(itertools.chain.from_iterable(document))` — the in-order concatenation
of the document's token lists. -/
def execute (documents : List (List (List String))) : List (List String) :=
  documents.map (fun document => document.flatten)

/-- `Flattened.save_result` (`flatten.py` lines 33-36): pickle the result to
`os.path.join(path, 'main.pickle')`. -/
def save_result {α : Type} (path : String) (result : α)
    (fs : Func.FileSystem α) : Func.FileSystem α :=
  (path ++ "/main.pickle", result) :: fs

/-- `Flattened.load_result` (`flatten.py` lines 38-41): unpickle the file at
`os.path.join(path, 'main.pickle')`. -/
def load_result {α : Type} (path : String) (fs : Func.FileSystem α) :
    Option α :=
  fs.lookup (path ++ "/main.pickle")

/-- `Flattened.is_deterministic` (`flatten.py` lines 43-45). -/
def is_deterministic : Bool := true

/-- `Flattened.get_checkpoint_metadata` (`flatten.py` lines 47-48): always the
empty dict `{}`.  The `run` parameter stands for the instance (`self`) and
execution on which the method is invoked; the source reads nothing from it. -/
def get_checkpoint_metadata (run : Nat) : Metadata := []

/-- `Flattened.checkpoint_is_valid` (`flatten.py` lines 50-51):
unconditionally `True`. -/
def checkpoint_is_valid (metadata : Metadata) : Bool := true

/-- `Flattened.get_arguments` (`flatten.py` lines 53-55): the empty schema
`{}` — the step takes no configuration.  Arguments are represented by their
names. -/
def get_arguments : List String := []

end Flattened

namespace Word2VecEncoder

/-- Python exceptions that `Word2VecEncoder.execute` and the configuration
accessor can raise. -/
inductive PyError where
| configurationError (key : String) : PyError
| valueError (msg : String) : PyError
| keyError (msg : String) : PyError
deriving DecidableEq, Repr

/-- A resolved configuration: dotted keys mapped to string values. -/
abbrev Config := List (String × String)

/-- Modelled from the spec: `self.config.get_casted(key, str)` belongs to the
external `checkpointed` core, which is not part of this repository's sources.
The spec describes it as "a read-only accessor exposing resolved, typed
configuration values by dotted key …, which must fail with a typed error if
the key is absent or of the wrong declared type".  Configuration values are
modelled as strings, so only the absent-key failure arises. -/
def Config.get_casted (config : Config) (key : String) :
    Except PyError String :=
  match config.lookup key with
  | none => .error (.configurationError key)
  | some v => .ok v

/-- Remove every binding of `key` from a configuration: the configuration an
operator would supply when omitting that argument. -/
def eraseKey (config : Config) (key : String) : Config :=
  config.filter (fun p => !(p.1 == key))

/-- A word embedding: a dict from words to vectors.  Vectors are opaque values
(their numeric content plays no role in the claims), modelled as `Nat`. -/
abbrev Vectors := List (String × Nat)

/-- The inner loop of `Word2VecEncoder.execute` (`word2vec.py` lines 30-41):
build `document_vectors` for one document.  For each word, `vectors[word]` is
appended; on `KeyError` the policy — re-read from the configuration, as the
source does on line 35 — decides: `'ignore'` skips the word, `'error'` raises
`KeyError`, `'replace'` appends `replacement_vector` (an optional value, `None`
until the replace branch of lines 21-27 sets it); a policy value matching no
case falls through the `match` statement and skips the word. -/
def documentVectors (config : Config) (vectors : Vectors)
    (replacementVector : Option Nat) :
    List String → Except PyError (List (Option Nat))
| [] => .ok []
| word :: rest =>
  match vectors.lookup word with
  | some v =>
    match documentVectors config vectors replacementVector rest with
    | .error e => .error e
    | .ok tl => .ok (some v :: tl)
  | none =>
    match Config.get_casted config "params.unknown-word-policy" with
    | .error e => .error e
    | .ok policy =>
      if policy = "ignore" then
        documentVectors config vectors replacementVector rest
      else if policy = "error" then
        .error (.keyError
          ("Word \"" ++ word ++ "\" not found in word embedding"))
      else if policy = "replace" then
        match documentVectors config vectors replacementVector rest with
        | .error e => .error e
        | .ok tl => .ok (replacementVector :: tl)
      else
        documentVectors config vectors replacementVector rest

/-- `numpy.vstack(document_vectors)` (`word2vec.py` line 42): stacking an
empty list raises `ValueError`.  A `None` entry cannot reach this point in the
source (the `'replace'` branch only runs when `replacement_vector` was set);
the model marks that unreachable shape as an error as well. -/
def vstackInner (documentVectors : List (Option Nat)) :
    Except PyError (List Nat) :=
  match documentVectors with
  | [] => .error (.valueError "need at least one array to concatenate")
  | d :: rest =>
    match (d :: rest).mapM id with
    | none => .error (.valueError "cannot stack None")
    | some vs => .ok vs

/-- The outer document loop of `Word2VecEncoder.execute` (`word2vec.py` lines
28-42): build and stack `document_vectors` for each document in order,
collecting the per-document matrices in `result`. -/
def documentsLoop (config : Config) (vectors : Vectors)
    (replacementVector : Option Nat) :
    List (List String) → Except PyError (List (List Nat))
| [] => .ok []
| document :: rest =>
  match documentVectors config vectors replacementVector document with
  | .error e => .error e
  | .ok dvs =>
    match vstackInner dvs with
    | .error e => .error e
    | .ok stacked =>
      match documentsLoop config vectors replacementVector rest with
      | .error e => .error e
      | .ok tail => .ok (stacked :: tail)

/-- `numpy.vstack(result)` (`word2vec.py` line 43): the final stack of the
per-document matrices; raises `ValueError` on an empty list, otherwise the
row-wise concatenation. -/
def vstackOuter (result : List (List Nat)) : Except PyError (List Nat) :=
  match result with
  | [] => .error (.valueError "need at least one array to concatenate")
  | r :: rest => .ok ((r :: rest).flatten)

/-- `Word2VecEncoder.execute` (`word2vec.py` lines 19-43).
`replacement_vector` starts as `None`; when
`config.get_casted('params.unknown-word-policy', str)` is `'replace'`, the
key `config.get_casted('params.unknown-word-replacement', str)` is read and
looked up in the embedding, raising
`ValueError('Replacement word "…" not found in word embedding')` when absent.
Then each document is encoded and stacked, and the per-document matrices are
stacked into the final result. -/
def execute (config : Config) (vectors : Vectors)
    (documents : List (List String)) : Except PyError (List Nat) :=
  match Config.get_casted config "params.unknown-word-policy" with
  | .error e => .error e
  | .ok policy =>
    match (if policy = "replace" then
            match Config.get_casted config "params.unknown-word-replacement" with
            | .error e => .error e
            | .ok key =>
              match vectors.lookup key with
              | none =>
                .error (.valueError
                  ("Replacement word \"" ++ key
                    ++ "\" not found in word embedding"))
              | some v => .ok (some v)
          else .ok (none : Option Nat) :
            Except PyError (Option Nat)) with
    | .error e => .error e
    | .ok replacementVector =>
      match documentsLoop config vectors replacementVector documents with
      | .error e => .error e
      | .ok result => vstackOuter result

/-- Whether a path already ends with the `.npy` extension (computed on the
character list so that it evaluates inside the kernel). -/
def endsWithNpy (path : String) : Bool :=
  decide (path.data.reverse.take 4 = ('y' :: 'p' :: 'n' :: '.' :: []))

/-- `Word2VecEncoder.save_result` (`word2vec.py` lines 45-47):
`numpy.save(path, result)`.  `numpy.save` appends the extension `.npy` to the
file name when the given path does not already end with it. -/
def save_result {α : Type} (path : String) (result : α)
    (fs : Func.FileSystem α) : Func.FileSystem α :=
  ((if endsWithNpy path then path else path ++ ".npy"), result) :: fs

/-- `Word2VecEncoder.load_result` (`word2vec.py` lines 49-51):
`numpy.load(path)` — reads exactly the given path (no extension is
appended). -/
def load_result {α : Type} (path : String) (fs : Func.FileSystem α) :
    Option α :=
  fs.lookup path

/-- `Word2VecEncoder.is_deterministic` (`word2vec.py` lines 76-78). -/
def is_deterministic : Bool := true

/-- `Word2VecEncoder.get_checkpoint_metadata` (`word2vec.py` lines 80-81):
always the empty dict `{}`; `run` stands for the instance and execution the
method is invoked on, which the source never reads. -/
def get_checkpoint_metadata (run : Nat) : Metadata := []

/-- `Word2VecEncoder.checkpoint_is_valid` (`word2vec.py` lines 83-84):
unconditionally `True`. -/
def checkpoint_is_valid (metadata : Metadata) : Bool := true

end Word2VecEncoder

namespace DictToSparseArray

/-- The inner loop of `DictToSparseArray.execute` (`dict2array.py` lines
30-36) over one document's `items()`: for each `(token, col)` pair the value
`col` is appended to `data`, the row index to `row_ind`, and
`word_to_index[token]` to `col_ind`; an absent token raises
`ValueError('Dictionary has no entry for word: …')`, discarding everything.
The result triple is `(data, row_ind, col_ind)` restricted to this
document. -/
def processDocument (wordToIndex : List (String × Nat)) (row : Nat) :
    List (String × Int) → Except String (List Int × List Nat × List Nat)
| [] => .ok ([], [], [])
| (token, value) :: rest =>
  match wordToIndex.lookup token with
  | none => .error ("Dictionary has no entry for word: " ++ token)
  | some colIndex =>
    match processDocument wordToIndex row rest with
    | .error e => .error e
    | .ok r => .ok (value :: r.1, row :: r.2.1, colIndex :: r.2.2)

/-- The outer loop of `DictToSparseArray.execute` (`dict2array.py` lines
29-36): `enumerate(documents)` supplies the row index; the per-document
triples are concatenated in order. -/
def executeLoop (wordToIndex : List (String × Nat)) (row : Nat) :
    List (List (String × Int)) →
    Except String (List Int × List Nat × List Nat)
| [] => .ok ([], [], [])
| document :: rest =>
  match processDocument wordToIndex row document with
  | .error e => .error e
  | .ok r1 =>
    match executeLoop wordToIndex (row + 1) rest with
    | .error e => .error e
    | .ok r2 => .ok (r1.1 ++ r2.1, r1.2.1 ++ r2.2.1, r1.2.2 ++ r2.2.2)

/-- `DictToSparseArray.execute` (`dict2array.py` lines 23-37): documents are
dicts from tokens to values (modelled as association lists in iteration
order); the result models the `(data, (row_ind, col_ind))` triple passed to
`scipy.sparse.csr_array`. -/
def execute (wordToIndex : List (String × Nat))
    (documents : List (List (String × Int))) :
    Except String (List Int × List Nat × List Nat) :=
  executeLoop wordToIndex 0 documents

/-- `DictToSparseArray.checkpoint_is_valid` (`dict2array.py` lines 56-57):
unconditionally `True`. -/
def checkpoint_is_valid (metadata : Metadata) : Bool := true

end DictToSparseArray

namespace DictToSparseArray

end DictToSparseArray

namespace Word2VecEncoder

/-- Looking up any other key is unaffected by erasing `key` from the
configuration. -/
theorem lookup_eraseKey (key k : String) (h : k ≠ key) :
    ∀ config : Config, (eraseKey config key).lookup k = config.lookup k := by
  intro config
  induction config with
  | nil => rfl
  | cons q rest ih =>
    obtain ⟨qk, qv⟩ := q
    by_cases hqk : qk = key
    · have hb : (qk == key) = true := beq_iff_eq.mpr hqk
      have hkq : (k == qk) = false :=
        beq_eq_false_iff_ne.mpr (by rw [hqk]; exact h)
      have hfilter : eraseKey ((qk, qv) :: rest) key = eraseKey rest key := by
        simp [eraseKey, List.filter_cons, hb]
      rw [hfilter, ih]
      simp [List.lookup, hkq]
    · have hb : (qk == key) = false := beq_eq_false_iff_ne.mpr hqk
      have hfilter : eraseKey ((qk, qv) :: rest) key
          = (qk, qv) :: eraseKey rest key := by
        simp [eraseKey, List.filter_cons, hb]
      rw [hfilter]
      cases hk : (k == qk) with
      | true => simp [List.lookup, hk]
      | false => simp [List.lookup, hk, ih]

/-- The per-document loop reads the configuration only through the
`'params.unknown-word-policy'` key: two configurations agreeing on that key
produce identical results. -/
theorem documentVectors_congr (c1 c2 : Config) (vectors : Vectors)
    (repl : Option Nat)
    (hpol : c1.lookup "params.unknown-word-policy"
      = c2.lookup "params.unknown-word-policy") :
    ∀ words : List String,
      documentVectors c1 vectors repl words
        = documentVectors c2 vectors repl words := by
  intro words
  induction words with
  | nil => rfl
  | cons word rest ih =>
    rw [documentVectors, documentVectors]
    cases hv : vectors.lookup word with
    | some v => rw [ih]
    | none =>
      have hgc : Config.get_casted c1 "params.unknown-word-policy"
          = Config.get_casted c2 "params.unknown-word-policy" := by
        unfold Config.get_casted
        rw [hpol]
      rw [hgc]
      cases Config.get_casted c2 "params.unknown-word-policy" with
      | error e => rfl
      | ok policy =>
        by_cases h1 : policy = "ignore"
        · simp [h1, ih]
        · by_cases h2 : policy = "error"
          · simp [h1, h2]
          · by_cases h3 : policy = "replace"
            · simp [h1, h2, h3, ih]
            · simp [h1, h2, h3, ih]

/-- The document loop reads the configuration only through the
`'params.unknown-word-policy'` key. -/
theorem documentsLoop_congr (c1 c2 : Config) (vectors : Vectors)
    (repl : Option Nat)
    (hpol : c1.lookup "params.unknown-word-policy"
      = c2.lookup "params.unknown-word-policy") :
    ∀ documents : List (List String),
      documentsLoop c1 vectors repl documents
        = documentsLoop c2 vectors repl documents := by
  intro documents
  induction documents with
  | nil => rfl
  | cons d rest ih =>
    rw [documentsLoop, documentsLoop]
    rw [documentVectors_congr c1 c2 vectors repl hpol d]
    simp only [ih]

/-- Every `vstackInner` failure is a `ValueError`. -/
theorem vstackInner_error :
    ∀ (dvs : List (Option Nat)) (e : PyError),
      vstackInner dvs = .error e → ∃ m, e = .valueError m := by
  intro dvs e h
  cases dvs with
  | nil =>
    have : PyError.valueError "need at least one array to concatenate" = e := by
      simpa [vstackInner] using h
    exact ⟨_, this.symm⟩
  | cons d rest =>
    rw [vstackInner] at h
    cases hm : (d :: rest).mapM id with
    | none =>
      rw [hm] at h
      have : PyError.valueError "cannot stack None" = e := by simpa using h
      exact ⟨_, this.symm⟩
    | some vs =>
      rw [hm] at h
      simp at h

/-- Every `vstackOuter` failure is a `ValueError`. -/
theorem vstackOuter_error :
    ∀ (result : List (List Nat)) (e : PyError),
      vstackOuter result = .error e → ∃ m, e = .valueError m := by
  intro result e h
  cases result with
  | nil =>
    have : PyError.valueError "need at least one array to concatenate" = e := by
      simpa [vstackOuter] using h
    exact ⟨_, this.symm⟩
  | cons r rest => simp [vstackOuter] at h

/-- When the policy key is present in the configuration, every failure of the
per-document loop is a `KeyError` (raised by the `'error'` policy). -/
theorem documentVectors_error (config : Config) (vectors : Vectors)
    (repl : Option Nat) (p : String)
    (hpol : config.lookup "params.unknown-word-policy" = some p) :
    ∀ (words : List String) (e : PyError),
      documentVectors config vectors repl words = .error e →
      ∃ m, e = .keyError m := by
  have hg : Config.get_casted config "params.unknown-word-policy" = .ok p := by
    unfold Config.get_casted
    rw [hpol]
  intro words
  induction words with
  | nil => intro e h; simp [documentVectors] at h
  | cons word rest ih =>
    intro e h
    rw [documentVectors] at h
    cases hv : vectors.lookup word with
    | some v =>
      rw [hv] at h
      cases hr : documentVectors config vectors repl rest with
      | error e2 =>
        rw [hr] at h
        have he : e2 = e := by simpa using h
        exact he ▸ ih e2 hr
      | ok tl =>
        rw [hr] at h
        simp at h
    | none =>
      rw [hv] at h
      simp only [hg] at h
      by_cases h1 : p = "ignore"
      · rw [if_pos h1] at h
        exact ih e h
      · rw [if_neg h1] at h
        by_cases h2 : p = "error"
        · rw [if_pos h2] at h
          have : PyError.keyError
              ("Word \"" ++ word ++ "\" not found in word embedding") = e := by
            simpa using h
          exact ⟨_, this.symm⟩
        · rw [if_neg h2] at h
          by_cases h3 : p = "replace"
          · rw [if_pos h3] at h
            cases hr : documentVectors config vectors repl rest with
            | error e2 =>
              rw [hr] at h
              have he : e2 = e := by simpa using h
              exact he ▸ ih e2 hr
            | ok tl =>
              rw [hr] at h
              simp at h
          · rw [if_neg h3] at h
            exact ih e h

/-- When the policy key is present, every failure of the document loop is a
`KeyError` or a `ValueError`. -/
theorem documentsLoop_error (config : Config) (vectors : Vectors)
    (repl : Option Nat) (p : String)
    (hpol : config.lookup "params.unknown-word-policy" = some p) :
    ∀ (documents : List (List String)) (e : PyError),
      documentsLoop config vectors repl documents = .error e →
      (∃ m, e = .keyError m) ∨ (∃ m, e = .valueError m) := by
  intro documents
  induction documents with
  | nil => intro e h; simp [documentsLoop] at h
  | cons d rest ih =>
    intro e h
    rw [documentsLoop] at h
    cases h1 : documentVectors config vectors repl d with
    | error e1 =>
      simp only [h1] at h
      have he : e1 = e := by simpa using h
      exact Or.inl (he ▸ documentVectors_error config vectors repl p hpol d e1 h1)
    | ok dvs =>
      simp only [h1] at h
      cases h2 : vstackInner dvs with
      | error e2 =>
        simp only [h2] at h
        have he : e2 = e := by simpa using h
        exact Or.inr (he ▸ vstackInner_error dvs e2 h2)
      | ok stacked =>
        simp only [h2] at h
        cases h3 : documentsLoop config vectors repl rest with
        | error e3 =>
          simp only [h3] at h
          have he : e3 = e := by simpa using h
          exact he ▸ ih e3 h3
        | ok tail =>
          simp only [h3] at h
          simp at h

end Word2VecEncoder

/-- The decorator's fingerprint (`hash(source)`) stays inside the 64-bit hash
codomain. -/
theorem pythonStringHash_lt (s : String) : pythonStringHash s < 2 ^ 64 := by
  unfold pythonStringHash
  have key : ∀ (l : List Char) (h : Nat), h < 2 ^ 64 →
      l.foldl (fun h c => (h * 33 + c.toNat) % (2 ^ 64)) h < 2 ^ 64 := by
    intro l
    induction l with
    | nil => intro h hh; simpa using hh
    | cons c cs ih =>
      intro h hh
      simp only [List.foldl_cons]
      exact ih _ (Nat.mod_lt _ (by norm_num))
  exact key s.data 5381 (by norm_num)

/-- No fingerprint function into the 64-bit hash codomain can separate all
pairs of distinct source texts: there are infinitely many source strings but
only finitely many fingerprints. -/
theorem fingerprint_collision_exists (f : String → Fin (2 ^ 64)) :
    ∃ s t : String, s ≠ t ∧ f s = f t := by
  have hinf : Infinite String := by
    apply Infinite.of_injective (fun n : ℕ => String.mk (List.replicate n 'a'))
    intro m n hmn
    have h2 : List.replicate m 'a' = List.replicate n 'a' :=
      congrArg String.data hmn
    simpa using congrArg List.length h2
  obtain ⟨s, t, hst, hft⟩ := Finite.exists_ne_map_eq_of_infinite f
  exact ⟨s, t, hst, hft⟩

end Checkpointed

open Checkpointed

/-- Claim C1, counterexample.  For an adapter-synthesized step whose
fingerprint is present, calling `checkpoint_is_valid` on structurally
incompatible metadata (a dict without the `'function_hash'` field) raises
`KeyError` instead of returning false: the claim's "returns false rather than
failing" clause is refuted at this concrete input. -/
theorem C1_counterexample :
    (Func.pipeline_step (some "def f(x, conf): return x") true
        (PyValue.pyBool true)).checkpoint_is_valid []
      = .error "KeyError: function_hash" := by
  rfl

/-- Claim C1, amended.  `checkpoint_is_valid(storedMetadata)` returns true iff
the step's own fingerprint is present and the metadata's `'function_hash'`
field holds that same fingerprint.  When the step's fingerprint is absent the
call returns false without reading the metadata, so structurally incompatible
metadata yields false in that case; but when the fingerprint is present and
the metadata lacks the `'function_hash'` field, the call raises `KeyError`
instead of returning false. -/
theorem C1_amended (hv : Option Nat) (pf : Bool) (si : PyValue)
    (m : Metadata) :
    ((FunctionStepBase.checkpoint_is_valid ⟨hv, pf, si⟩ m = .ok true
        ↔ ∃ v, hv = some v ∧ m.lookup "function_hash" = some (some v))
      ∧ (hv = none → FunctionStepBase.checkpoint_is_valid ⟨hv, pf, si⟩ m = .ok false)
      ∧ (∀ v, hv = some v → m.lookup "function_hash" = none →
          FunctionStepBase.checkpoint_is_valid ⟨hv, pf, si⟩ m
            = .error "KeyError: function_hash")) := by
  refine ⟨?_, ?_, ?_⟩
  · constructor
    · intro h
      unfold FunctionStepBase.checkpoint_is_valid at h
      cases hv with
      | none => simp at h
      | some v =>
        cases hm : m.lookup "function_hash" with
        | none => simp [hm] at h
        | some stored =>
          simp only [hm] at h
          cases stored with
          | none => simp at h
          | some w =>
            have hvw : v = w := by simpa using h
            exact ⟨v, rfl, by rw [hvw]⟩
    · rintro ⟨v, rfl, hm⟩
      unfold FunctionStepBase.checkpoint_is_valid
      simp [hm]
  · rintro rfl
    rfl
  · rintro v rfl hm
    unfold FunctionStepBase.checkpoint_is_valid
    simp [hm]

/-- Claim C1, witness for the amended theorem at concrete inputs. -/
theorem C1_witness :
    FunctionStepBase.checkpoint_is_valid ⟨none, false, PyValue.pyNone⟩ []
      = .ok false :=
  (C1_amended none false PyValue.pyNone []).2.1 rfl

/-- Claim C2, counterexample.  An adapter step built with `is_pure=False`
(so `is_deterministic()` is false) whose fingerprint is available still
validates the metadata of its own most recent run: `checkpoint_is_valid`
returns true, refuting "returns false for every input metadata". -/
theorem C2_counterexample :
    FunctionStepBase.is_deterministic
        (Func.pipeline_step (some "def f(x, conf): return x") false
          (PyValue.pyBool true)) = false
    ∧ FunctionStepBase.checkpoint_is_valid
        (Func.pipeline_step (some "def f(x, conf): return x") false
          (PyValue.pyBool true))
        (FunctionStepBase.get_checkpoint_metadata
          (Func.pipeline_step (some "def f(x, conf): return x") false
            (PyValue.pyBool true)))
      = .ok true := by
  constructor
  · rfl
  · rfl

/-- Claim C2, amended.  The adapter's `checkpoint_is_valid` never consults the
purity flag: its result is the same for any two steps sharing a fingerprint,
whatever their purity flags and supported-inputs values; consequently a
non-deterministic (`is_pure=False`) step with a present fingerprint still
returns true on metadata embedding that fingerprint. -/
theorem C2_amended (hv : Option Nat) (p q : Bool) (si sj : PyValue)
    (m : Metadata) :
    (FunctionStepBase.checkpoint_is_valid ⟨hv, p, si⟩ m
        = FunctionStepBase.checkpoint_is_valid ⟨hv, q, sj⟩ m)
    ∧ (FunctionStepBase.is_deterministic ⟨hv, false, si⟩ = false)
    ∧ (∀ v, hv = some v →
        FunctionStepBase.checkpoint_is_valid ⟨hv, false, si⟩
          [("function_hash", some v)] = .ok true) := by
  refine ⟨rfl, rfl, ?_⟩
  rintro v rfl
  unfold FunctionStepBase.checkpoint_is_valid
  simp [List.lookup]

/-- Claim C2, witness for the amended theorem at concrete inputs. -/
theorem C2_witness :
    FunctionStepBase.checkpoint_is_valid ⟨some 7, false, PyValue.pyNone⟩
      [("function_hash", some 7)] = .ok true :=
  (C2_amended (some 7) false true PyValue.pyNone PyValue.pyNone []).2.2 7 rfl

/-- Claim C3.  An adapter step whose function source could not be
introspected (`inspect.getsource` raised, so the fingerprint is `None`)
reports `checkpoint_is_valid(metadata) = false` for every metadata — in
particular for its own freshly produced `get_checkpoint_metadata()` — and for
either value of the purity flag. -/
theorem C3_checkpoint_never_valid (isPureFlag : Bool) (si : PyValue)
    (m : Metadata) :
    ((Func.pipeline_step none isPureFlag si).checkpoint_is_valid m = .ok false)
    ∧ ((Func.pipeline_step none isPureFlag si).checkpoint_is_valid
        ((Func.pipeline_step none isPureFlag si).get_checkpoint_metadata)
        = .ok false) := by
  exact ⟨rfl, rfl⟩

/-- Claim C4, counterexample.  An adapter step with `is_pure=True` but an
absent fingerprint is deterministic (`is_deterministic()` is true) yet fails
to validate the metadata of its own most recent execution, refuting the claim
for this step. -/
theorem C4_counterexample :
    FunctionStepBase.is_deterministic
        (Func.pipeline_step none true PyValue.pyNone) = true
    ∧ FunctionStepBase.checkpoint_is_valid
        (Func.pipeline_step none true PyValue.pyNone)
        (FunctionStepBase.get_checkpoint_metadata
          (Func.pipeline_step none true PyValue.pyNone))
      = .ok false := by
  exact ⟨rfl, rfl⟩

/-- Claim C4, amended.  For deterministic steps the self-validation law holds
except for adapter steps with an absent fingerprint: an adapter step with a
present fingerprint validates its own metadata, and the concrete deterministic
steps (`Word2VecEncoder`, `Flattened`, `DictToSparseArray`) accept any
metadata.  Repeated execution on identical inputs yields equal results: each
step's `execute` is a pure function of its inputs and configuration in this
embedding. -/
theorem C4_amended (v : Nat) (pf : Bool) (si : PyValue) (m : Metadata)
    (documents : List (List (List String))) :
    (FunctionStepBase.checkpoint_is_valid ⟨some v, pf, si⟩
        (FunctionStepBase.get_checkpoint_metadata ⟨some v, pf, si⟩) = .ok true)
    ∧ (Word2VecEncoder.is_deterministic = true
        ∧ Word2VecEncoder.checkpoint_is_valid m = true)
    ∧ (Flattened.is_deterministic = true
        ∧ Flattened.checkpoint_is_valid m = true)
    ∧ (DictToSparseArray.checkpoint_is_valid m = true)
    ∧ (Flattened.execute documents = Flattened.execute documents) := by
  refine ⟨?_, ⟨rfl, rfl⟩, ⟨rfl, rfl⟩, rfl, rfl⟩
  unfold FunctionStepBase.checkpoint_is_valid
    FunctionStepBase.get_checkpoint_metadata
  simp [List.lookup]

/-- Claim C5.  The pickle save/load pair of the adapter and the flatten step's
pickled file round-trip for every stored result; the word2vec pair
round-trips only for paths already carrying the `.npy` extension, and at the
failing input — a path without the extension — `load_result` after
`save_result` finds no file at all (`numpy.save` wrote to `checkpoint.npy`
while `numpy.load` reads `checkpoint`). -/
theorem C5_roundtrip_and_bug :
    (∀ (path : String) (r : Nat) (fs : Func.FileSystem Nat),
        Func.pickle_loader path (Func.pickle_saver path r fs) = some r)
    ∧ (∀ (path : String) (r : Nat) (fs : Func.FileSystem Nat),
        Flattened.load_result path (Flattened.save_result path r fs) = some r)
    ∧ (∀ (r : Nat) (fs : Func.FileSystem Nat),
        Word2VecEncoder.load_result "x.npy"
          (Word2VecEncoder.save_result "x.npy" r fs) = some r)
    ∧ Word2VecEncoder.load_result "checkpoint"
        (Word2VecEncoder.save_result "checkpoint" (0 : Nat) []) = none := by
  refine ⟨?_, ?_, ?_, ?_⟩
  · intro path r fs
    simp [Func.pickle_loader, Func.pickle_saver, List.lookup]
  · intro path r fs
    simp [Flattened.load_result, Flattened.save_result, List.lookup]
  · intro r fs
    have h : Word2VecEncoder.endsWithNpy "x.npy" = true := by decide
    simp [Word2VecEncoder.load_result, Word2VecEncoder.save_result, h,
      List.lookup]
  · decide

/-- Claim C6, counterexample.  Two textually different function sources with
equal fingerprints: the claim's "any textually different source yields a
different fingerprint" is refuted by a hash collision. -/
theorem C6_counterexample :
    ("def f(): return ab" ≠ "def f(): return bA")
    ∧ (Func.pipeline_step (some "def f(): return ab") false
          PyValue.pyNone).functionHash
      = (Func.pipeline_step (some "def f(): return bA") false
          PyValue.pyNone).functionHash := by
  exact ⟨by decide, rfl⟩

/-- Claim C6, amended.  The identity fingerprint is a deterministic function
of the source text alone (so building twice from textually identical source
always yields equal fingerprints, whatever the other decorator parameters),
but a textually different source yields a different fingerprint only
best-effort: the fingerprint inhabits a finite 64-bit codomain, so distinct
sources can collide. -/
theorem C6_amended (s t : String) (p q : Bool) (si sj : PyValue) :
    (s = t →
      (Func.pipeline_step (some s) p si).functionHash
        = (Func.pipeline_step (some t) q sj).functionHash)
    ∧ (∀ u : String, pythonStringHash u < 2 ^ 64)
    ∧ (∃ u w : String, u ≠ w
        ∧ (Func.pipeline_step (some u) p si).functionHash
          = (Func.pipeline_step (some w) q sj).functionHash) := by
  refine ⟨?_, fun u => pythonStringHash_lt u, ?_⟩
  · rintro rfl
    rfl
  · refine ⟨"def f(): return ab", "def f(): return bA", by decide, rfl⟩

/-- Claim C6, witness for the amended theorem at concrete inputs. -/
theorem C6_witness :
    (Func.pipeline_step (some "def g(): pass") true
        PyValue.pyNone).functionHash
      = (Func.pipeline_step (some "def g(): pass") false
          PyValue.pyNone).functionHash :=
  (C6_amended "def g(): pass" "def g(): pass" true false PyValue.pyNone
    PyValue.pyNone).1 rfl

/-- Claim C9.  The flatten step maps each document to the in-order
concatenation of its token lists — in particular the spec's concrete example —
declares an empty argument schema, and produces identical checkpoint metadata
on any two executions. -/
theorem C9_flatten :
    (Flattened.execute [[["a", "b"], ["c"]], [["d"]]]
        = [["a", "b", "c"], ["d"]])
    ∧ (∀ (documents : List (List (List String))) (i : Nat),
        (Flattened.execute documents)[i]?
          = (documents[i]?).map List.flatten)
    ∧ (Flattened.get_arguments = [])
    ∧ (∀ r1 r2 : Nat,
        Flattened.get_checkpoint_metadata r1
          = Flattened.get_checkpoint_metadata r2) := by
  refine ⟨rfl, ?_, rfl, fun r1 r2 => rfl⟩
  intro documents i
  simp [Flattened.execute]

/-- Claim C10.  The adapter's input-compatibility check ignores the candidate
producer entirely: `supports_step_as_input` returns the stored
`'$_supported_inputs'` value unchanged, so the result is identical across any
two candidate steps, and any truthy stored value (such as a non-empty
collection) makes every candidate accepted. -/
theorem C10_supports_ignores_candidate (w : FunctionStepBase)
    (s1 s2 : String) :
    (w.supports_step_as_input s1 = w.supports_step_as_input s2)
    ∧ (w.supports_step_as_input s1 = w.supportedInputs)
    ∧ (pyTruthy w.supportedInputs = true →
        pyTruthy (w.supports_step_as_input s1) = true)
    ∧ (pyTruthy
        ((Func.pipeline_step (some "def f(x, conf): return 0") false
            (PyValue.pyList ["StepA"])).supports_step_as_input s1) = true) := by
  exact ⟨rfl, rfl, fun h => h, rfl⟩

/-- Claim C8.  When the configured `'params.unknown-word-policy'` is not
`'replace'` (so the enablement constraint of `'unknown-word-replacement'`
evaluates false), the word2vec `execute` never consults the
`'params.unknown-word-replacement'` key: its result is unchanged when that
key is erased from the configuration, and no failure mentions that key as a
missing-configuration error. -/
theorem C8_enablement (config : Word2VecEncoder.Config)
    (vectors : Word2VecEncoder.Vectors) (documents : List (List String))
    (p : String)
    (hpol : config.lookup "params.unknown-word-policy" = some p)
    (hne : p ≠ "replace") :
    (Word2VecEncoder.execute config vectors documents
        = Word2VecEncoder.execute
            (Word2VecEncoder.eraseKey config "params.unknown-word-replacement")
            vectors documents)
    ∧ (∀ e, Word2VecEncoder.execute config vectors documents = .error e →
        e ≠ .configurationError "params.unknown-word-replacement") := by
  have hkeys : "params.unknown-word-policy"
      ≠ "params.unknown-word-replacement" := by decide
  have hpol2 : (Word2VecEncoder.eraseKey config
        "params.unknown-word-replacement").lookup
        "params.unknown-word-policy" = some p := by
    rw [Word2VecEncoder.lookup_eraseKey _ _ hkeys]
    exact hpol
  have hg1 : Word2VecEncoder.Config.get_casted config
      "params.unknown-word-policy" = .ok p := by
    unfold Word2VecEncoder.Config.get_casted
    rw [hpol]
  have hg2 : Word2VecEncoder.Config.get_casted
      (Word2VecEncoder.eraseKey config "params.unknown-word-replacement")
      "params.unknown-word-policy" = .ok p := by
    unfold Word2VecEncoder.Config.get_casted
    rw [hpol2]
  have hloop := Word2VecEncoder.documentsLoop_congr config
    (Word2VecEncoder.eraseKey config "params.unknown-word-replacement")
    vectors none (by rw [hpol, hpol2]) documents
  constructor
  · unfold Word2VecEncoder.execute
    simp only [hg1, hg2, if_neg hne, hloop]
  · intro e he
    unfold Word2VecEncoder.execute at he
    simp only [hg1, if_neg hne] at he
    cases hd : Word2VecEncoder.documentsLoop config vectors none documents with
    | error e1 =>
      simp only [hd] at he
      have h1 : e1 = e := by simpa using he
      rcases h1 ▸ Word2VecEncoder.documentsLoop_error config vectors none p
          hpol documents e1 hd with ⟨m, hm⟩ | ⟨m, hm⟩ <;>
        · rw [hm]
          intro hcc
          exact Word2VecEncoder.PyError.noConfusion hcc
    | ok result =>
      simp only [hd] at he
      obtain ⟨m, hm⟩ := Word2VecEncoder.vstackOuter_error result e he
      rw [hm]
      intro hcc
      exact Word2VecEncoder.PyError.noConfusion hcc

/-- Claim C8, witness: the theorem applied at a concrete configuration whose
policy is `'ignore'` and which omits the replacement key. -/
theorem C8_witness :
    Word2VecEncoder.execute [("params.unknown-word-policy", "ignore")]
        [("a", 1)] [["a", "b"]]
      = Word2VecEncoder.execute
          (Word2VecEncoder.eraseKey
            [("params.unknown-word-policy", "ignore")]
            "params.unknown-word-replacement") [("a", 1)] [["a", "b"]] :=
  (C8_enablement [("params.unknown-word-policy", "ignore")] [("a", 1)]
    [["a", "b"]] "ignore" rfl (by decide)).1

/-- Claim C10, witness at concrete inputs. -/
theorem C10_witness :
    pyTruthy
      ((⟨none, false, PyValue.pyList ["A", "B"]⟩ :
          FunctionStepBase).supports_step_as_input "CandidateStep") = true :=
  (C10_supports_ignores_candidate ⟨none, false, PyValue.pyList ["A", "B"]⟩
    "CandidateStep" "Other").2.2.1 (by decide)
